import Mathlib

/-!
Verification development for the `video_upload_workflow` repository
(`src/video_upload_workflow.py` and `src/web/app.py`).

The program is a video-publishing pipeline.  The CLI driver (`main`) runs a
fixed sequence of stages over the current working directory; each stage with an
on-disk output artifact is skipped when the artifact already exists.  A Flask
web driver runs the same stage functions over a per-session directory.

Shallow embedding conventions:
* The working directory is an association list `FS` from file names to parsed
  contents.  File contents are modelled as `Json` values: a plain text file
  holds a `Json.str`; `json.load` of a file returns the file's value.
  (Serialization is abstracted away; a file whose bytes are not valid JSON is
  not representable, and no claim depends on one.)
* External processes (`subprocess.run`) are modelled by an oracle
  `Env : Cmd → FS → FS × Nat` giving the tool's effect on the directory and its
  exit status.  Every invocation is recorded in a trace together with the
  filesystem state at invocation time, so "performs zero external invocations"
  is `trace` unchanged.
* `input()` lines are a list of strings consumed in order; exhausting them
  models blocking forever on stdin.
* `sys.exit(code)` is `Res.exit`; an uncaught Python exception (e.g.
  `FileNotFoundError`, `AttributeError`, `json` type errors) is `Res.crash`.
  Corner cases where CPython would fail only later with a type error (a
  non-string `chapters` value reaching `write_text`, a non-string entry of
  `suggested_titles` reaching the subprocess argument list) are modelled as an
  immediate `Res.crash`; no claim exercises those corners.
-/

/-- Parsed file contents / JSON values, as produced by `json.load`. -/
inductive Json where
  | null : Json
  | bool (b : Bool) : Json
  | num (n : Int) : Json
  | str (s : String) : Json
  | arr (xs : List Json) : Json
  | obj (kvs : List (String × Json)) : Json

/-- A working directory: an association list from file names to contents.
File names are unique keys (writes replace in place). -/
abbrev FS := List (String × Json)

def FS.lookup : FS → String → Option Json
  | [], _ => none
  | (k, v) :: rest, p => if k = p then some v else FS.lookup rest p

/-- Models `Path.exists()`. -/
def FS.pathExists (fs : FS) (p : String) : Bool :=
  (fs.lookup p).isSome

/-- Models writing a file (create or overwrite). -/
def FS.write : FS → String → Json → FS
  | [], p, c => [(p, c)]
  | (k, v) :: rest, p, c => if k = p then (p, c) :: rest else (k, v) :: FS.write rest p c

def FS.erase : FS → String → FS
  | [], _ => []
  | (k, v) :: rest, p => if k = p then rest else (k, v) :: FS.erase rest p

/-- Models `Path.rename`: move the file at `p` to `q` (the caller has checked
that `p` exists; renaming a path onto itself keeps the content). -/
def FS.rename (fs : FS) (p q : String) : FS :=
  match fs.lookup p with
  | none => fs
  | some c => (fs.erase p).write q c

theorem FS.lookup_write_self (fs : FS) (p : String) (c : Json) :
    (fs.write p c).lookup p = some c := by
  induction fs with
  | nil => simp [FS.write, FS.lookup]
  | cons kv rest ih =>
    by_cases h : kv.1 = p
    · simp [FS.write, FS.lookup, h]
    · simp [FS.write, FS.lookup, h, ih]

/-- An external command: executable name and argument list, as passed to
`subprocess.run`. -/
structure Cmd where
  name : String
  args : List String
deriving DecidableEq

/-- Behaviour of the external world: a command applied to the current
directory yields the directory afterwards and the child's exit status. -/
abbrev Env := Cmd → FS → FS × Nat

/-- Process state: the working directory, the trace of external invocations
(each with the filesystem as the child process saw it), and the pending
stdin lines. -/
structure St where
  fs : FS
  trace : List (Cmd × FS)
  inputs : List String

/-- Outcome of running a piece of the program. -/
inductive Res (α : Type) where
  | ok (a : α) (s : St)
  | exit (code : Nat) (s : St)
  | crash (s : St)
  | blocked (s : St)

def Res.bind {α β : Type} : Res α → (α → St → Res β) → Res β
  | .ok a s, f => f a s
  | .exit c s, _ => .exit c s
  | .crash s, _ => .crash s
  | .blocked s, _ => .blocked s

/-- The invocation trace at the point the run ended, whichever way it ended. -/
def Res.traceAll {α : Type} : Res α → List (Cmd × FS)
  | .ok _ s => s.trace
  | .exit _ s => s.trace
  | .crash s => s.trace
  | .blocked s => s.trace

/-- The commands invoked during a run that completed normally. -/
def Res.okCmds {α : Type} : Res α → Option (List Cmd)
  | .ok _ s => some (s.trace.map Prod.fst)
  | _ => none

/-- Exit code and invoked commands of a run that ended in `sys.exit`. -/
def Res.exitInfo {α : Type} : Res α → Option (Nat × List Cmd)
  | .exit c s => some (c, s.trace.map Prod.fst)
  | _ => none

/-- Models `input()`: consume the next stdin line, blocking if none is left. -/
def readLine (s : St) : Res String :=
  match s.inputs with
  | [] => .blocked s
  | i :: rest => .ok i { s with inputs := rest }

/-- Models Python `str.strip()`: remove leading and trailing whitespace (the
claims only exercise ASCII whitespace). -/
def strip (s : String) : String :=
  String.mk
    (((s.data.dropWhile Char.isWhitespace).reverse.dropWhile Char.isWhitespace).reverse)

/-- Models Python `str.lower()` (the claims only exercise ASCII letters). -/
def lower (s : String) : String := String.mk (s.data.map Char.toLower)

/-- Digit run with CPython's underscore rule: an underscore must stand between
two digits.  Argument is the character list after the optional sign. -/
def parseDigitsAux (acc : Nat) : List Char → Option Nat
  | [] => some acc
  | '_' :: c :: cs =>
      if c.isDigit then parseDigitsAux (acc * 10 + (c.toNat - 48)) cs else none
  | c :: cs =>
      if c.isDigit then parseDigitsAux (acc * 10 + (c.toNat - 48)) cs else none

def parseDigits : List Char → Option Nat
  | [] => none
  | c :: cs => if c.isDigit then parseDigitsAux (c.toNat - 48) cs else none

/-- Models Python `int(s)` on an already-stripped string: optional sign and a
nonempty decimal digit run; anything else raises `ValueError` (`none`). -/
def parseInt (s : String) : Option Int :=
  match s.data with
  | '+' :: cs => (parseDigits cs).map (fun n => (n : Int))
  | '-' :: cs => (parseDigits cs).map (fun n => -(n : Int))
  | cs => (parseDigits cs).map (fun n => (n : Int))

/-- Stem of the last path component: drops the extension after the last dot,
except when that would leave an empty stem (dotfiles keep their whole name),
as `pathlib.PurePath.with_suffix` does. -/
def stemRevOf (nameRev : List Char) : List Char :=
  match nameRev.dropWhile (fun c => !(c = '.')) with
  | [] => nameRev
  | _ :: rest => if rest = [] then nameRev else rest

/-- Models `Path(p).with_suffix(suf)`. -/
def withSuffix (p : String) (suf : String) : String :=
  let r := p.data.reverse
  let nameRev := r.takeWhile (fun c => !(c = '/'))
  let dirRev := r.dropWhile (fun c => !(c = '/'))
  String.mk (dirRev.reverse ++ (stemRevOf nameRev).reverse ++ suf.data)

/-- Models `run_command` (`video_upload_workflow.py:32`): run the command; on a
`CalledProcessError` (non-zero exit status) call `sys.exit(err.returncode)`. -/
def run_command (env : Env) (cmd : Cmd) (s : St) : Res Unit :=
  let out := env cmd s.fs
  let s2 : St := { s with fs := out.1, trace := s.trace ++ [(cmd, s.fs)] }
  if out.2 = 0 then .ok () s2 else .exit out.2 s2

/-- Models `color_edit_video` (`video_upload_workflow.py:48`). -/
def color_edit_video (env : Env) (input_video : String) (output_video : String)
    (volume_threshold : String) (s : St) : Res Unit :=
  if FS.pathExists s.fs output_video then .ok () s
  else
    run_command env
      ⟨"color_edit", ["--input", input_video, "--output", output_video,
        "--volume_threshold", volume_threshold]⟩ s

/-- Models `transcribe_video` (`video_upload_workflow.py:64`): run whisper,
then move its `<input>.srt` output to the requested path, exiting with code 1
if that file did not materialize. -/
def transcribe_video (env : Env) (input_video : String) (output_srt : String)
    (s : St) : Res Unit :=
  if FS.pathExists s.fs output_srt then .ok () s
  else
    (run_command env
      ⟨"whisper", ["--output_format", "srt", "--task", "transcribe", input_video]⟩ s).bind
      (fun _ s2 =>
        let srt_file := withSuffix input_video ".srt"
        if FS.pathExists s2.fs srt_file then
          .ok () { s2 with fs := s2.fs.rename srt_file output_srt }
        else .exit 1 s2)

/-- Models `generate_chapters` (`video_upload_workflow.py:89`). -/
def generate_chapters (env : Env) (input_srt : String) (output_json : String)
    (s : St) : Res Unit :=
  if FS.pathExists s.fs output_json then .ok () s
  else
    run_command env
      ⟨"yt_chapter_maker", ["--input", input_srt, "--output", output_json]⟩ s

def jsonFind : List (String × Json) → String → Option Json
  | [], _ => none
  | (k, v) :: rest, key => if k = key then some v else jsonFind rest key

/-- Models `extract_chapters_and_titles` (`video_upload_workflow.py:104`)
applied to an already-parsed payload: `dict.get` with defaults `""` and `[]`.
A non-object payload makes `.get` raise `AttributeError` (`none`). -/
def extract_chapters_and_titles : Json → Option (Json × Json)
  | .obj kvs =>
      some ((jsonFind kvs "chapters").getD (.str ""),
            (jsonFind kvs "suggested_titles").getD (.arr []))
  | _ => none

def asStrings : List Json → Option (List String)
  | [] => some []
  | .str s :: rest => (asStrings rest).map (fun l => s :: l)
  | _ :: _ => none

/-- Selection loop of `select_and_edit_title` (`video_upload_workflow.py:136`):
consume stdin lines until a selection is accepted; return the selected title
and the remaining lines.  `none` means the loop never terminates on the given
(finite) input. -/
def selectTitle (titles : List String) : List String → Option (String × List String)
  | [] => none
  | i :: rest =>
    match parseInt (strip i) with
    | none => selectTitle titles rest
    | some n =>
      if n = 0 then
        match rest with
        | [] => none
        | c :: rest2 => some (strip c, rest2)
      else if 1 ≤ n ∧ n ≤ (titles.length : Int) then
        some (titles.getD (n.toNat - 1) "", rest)
      else selectTitle titles rest

/-- Models `select_and_edit_title` (`video_upload_workflow.py:117`) as a
function of the stdin lines: selection loop, then one edit line; a non-empty
stripped edit overrides the selected title. -/
def select_and_edit_title (titles : List String) (inputs : List String) : Option String :=
  match selectTitle titles inputs with
  | none => none
  | some (sel, rest) =>
    match rest with
    | [] => none
    | e :: _ => some (if (strip e).isEmpty then sel else strip e)

/-- `select_and_edit_title` threaded through the process state. -/
def select_and_edit_title_st (titles : List String) (s : St) : Res String :=
  match selectTitle titles s.inputs with
  | none => .blocked { s with inputs := [] }
  | some (sel, rest) =>
    match rest with
    | [] => .blocked { s with inputs := [] }
    | e :: rest2 =>
      .ok (if (strip e).isEmpty then sel else strip e) { s with inputs := rest2 }

/-- Models `edit_description` (`video_upload_workflow.py:161`): write the
chapters text to `description.txt` unconditionally, then run
`$EDITOR` (default `nano`) on it via plain `subprocess.run` with no status
check, then read the file back for the final print. -/
def edit_description (env : Env) (editorVar : Option String) (chapters : String)
    (s : St) : Res String :=
  let fs1 := s.fs.write "description.txt" (.str chapters)
  let cmd : Cmd := ⟨editorVar.getD "nano", ["description.txt"]⟩
  let out := env cmd fs1
  let s2 : St := { s with fs := out.1, trace := s.trace ++ [(cmd, fs1)] }
  match FS.lookup s2.fs "description.txt" with
  | none => .crash s2
  | some _ => .ok "description.txt" s2

/-- Models `confirm_upload` (`video_upload_workflow.py:183`): skip entirely
when the flag is set; otherwise print the description (reading the file), read
one line, and `sys.exit(0)` unless its stripped, lowercased form is `"y"`. -/
def confirm_upload (final_title : String) (description_file : String)
    (skip_confirmation : Bool) (s : St) : Res Unit :=
  if skip_confirmation then .ok () s
  else
    match FS.lookup s.fs description_file with
    | none => .crash s
    | some _ =>
      match s.inputs with
      | [] => .blocked s
      | i :: rest =>
        if lower (strip i) = "y" then .ok () { s with inputs := rest }
        else .exit 0 { s with inputs := rest }

/-- Models `upload_video` (`video_upload_workflow.py:204`). -/
def upload_video (env : Env) (final_title : String) (video_path : String)
    (s : St) : Res Unit :=
  run_command env
    ⟨"yt_upload", ["--video", video_path, "--transcript", "output.srt",
      "--description", "description.txt", "--thumbnail", "thumbnail.png",
      "--title", final_title]⟩ s

/-- CLI arguments after argparse (`video_upload_workflow.py:219`). -/
structure Args where
  input_video : String
  yes : Bool
  skip_color_edit : Bool
  volume_threshold : String

/-- Models `main` (`video_upload_workflow.py:218`): prerequisite check, then
the eight stages in order over the current working directory. -/
def mainRun (env : Env) (editorVar : Option String) (uvxInstalled : Bool)
    (args : Args) (s : St) : Res Unit :=
  if uvxInstalled = false then .exit 1 s
  else
    (if args.skip_color_edit then (.ok args.input_video s : Res String)
     else
       (color_edit_video env args.input_video "output.mp4" args.volume_threshold s).bind
         (fun _ s1 => .ok "output.mp4" s1)).bind
    (fun output_video s1 =>
    (transcribe_video env output_video "output.srt" s1).bind (fun _ s2 =>
    (generate_chapters env "output.srt" "chapters_and_suggested_titles.json" s2).bind
    (fun _ s3 =>
    match FS.lookup s3.fs "chapters_and_suggested_titles.json" with
    | none => .crash s3
    | some data =>
      match extract_chapters_and_titles data with
      | none => .crash s3
      | some (chaptersJ, titlesJ) =>
        match chaptersJ, titlesJ with
        | .str chapters, .arr titlesRaw =>
          match asStrings titlesRaw with
          | none => .crash s3
          | some titles =>
            (select_and_edit_title_st titles s3).bind (fun final_title s4 =>
            (edit_description env editorVar chapters s4).bind (fun description_file s5 =>
            (confirm_upload final_title description_file args.yes s5).bind (fun _ s6 =>
            upload_video env final_title output_video s6)))
        | _, _ => .crash s3)))

/-- Outcome of one Flask request handler (`src/web/app.py`). `raised` is an
exception escaping the handler; `exited` is an uncaught `SystemExit` coming
from `sys.exit` inside the reused workflow functions (not caught by
`except Exception`). -/
inductive WebRes where
  | redirect (endpoint : String) (flashes : List String) (fs : FS)
  | render (template : String) (data : Json) (fs : FS)
  | raised (fs : FS)
  | exited (code : Nat) (fs : FS)

def WebRes.fsOf : WebRes → FS
  | .redirect _ _ fs => fs
  | .render _ _ fs => fs
  | .raised fs => fs
  | .exited _ fs => fs

def WebRes.endpointOf : WebRes → Option String
  | .redirect e _ _ => some e
  | _ => none

/-- Models the `process_video` handler (`app.py:81`): session and
session-folder checks, then (on POST) stages 1-4 over the session directory,
writing `chapters.txt` and `titles.json` and redirecting to `select_title`.
The whole body runs inside `try/except Exception`, which catches an ordinary
exception (→ redirect to index with an error flash) but not the `SystemExit`
raised by `run_command` on a failing tool.  Paths are relative to the session
folder (the handler `os.chdir`s into it); flash texts elide the interpolated
exception message. -/
def web_process_video (env : Env) (sessionId : Option String) (folderExists : Bool)
    (isPost : Bool) (skip_color_edit : Bool) (fs : FS) : WebRes × List (Cmd × FS) :=
  match sessionId with
  | none => (.redirect "index" ["No active upload session"] fs, [])
  | some _ =>
    if folderExists = false then (.redirect "index" ["Upload session not found"] fs, [])
    else if isPost = false then (.render "process.html" .null fs, [])
    else
      let s0 : St := ⟨fs, [], []⟩
      let input_video := "input_video.mp4"
      let r : Res Unit :=
        (if skip_color_edit then
          (.ok input_video { s0 with fs := s0.fs.write "color_edit_skipped.txt" (.str "true") }
            : Res String)
         else
           (color_edit_video env input_video "output.mp4" "0.002" s0).bind
             (fun _ s1 => .ok "output.mp4" s1)).bind
        (fun output_video s1 =>
        (transcribe_video env output_video "output.srt" s1).bind (fun _ s2 =>
        (generate_chapters env "output.srt" "chapters_and_suggested_titles.json" s2).bind
        (fun _ s3 =>
        match FS.lookup s3.fs "chapters_and_suggested_titles.json" with
        | none => .crash s3
        | some data =>
          match extract_chapters_and_titles data with
          | none => .crash s3
          | some (chaptersJ, titlesJ) =>
            match chaptersJ with
            | .str chapters =>
              .ok () { s3 with
                fs := (s3.fs.write "chapters.txt" (.str chapters)).write "titles.json" titlesJ }
            | _ => .crash s3)))
      match r with
      | .ok _ s => (.redirect "select_title" [] s.fs, s.trace)
      | .crash s => (.redirect "index" ["Error during processing"] s.fs, s.trace)
      | .exit c s => (.exited c s.fs, s.trace)
      | .blocked s => (.raised s.fs, s.trace)

/-- Models the `select_title` handler (`app.py:145`).  On POST it writes
`final_title.txt`, then reads `chapters.txt` with a bare `read_text` that is
not wrapped in any `try`: a missing chapters artifact raises
`FileNotFoundError` out of the handler.  On GET the `titles.json` read is
wrapped in a bare `except` that substitutes a one-element default list. -/
def web_select_title (sessionId : Option String) (isPost : Bool) (formTitle : String)
    (fs : FS) : WebRes :=
  match sessionId with
  | none => .redirect "index" ["No active upload session"] fs
  | some _ =>
    if isPost then
      let fs1 := fs.write "final_title.txt" (.str formTitle)
      match FS.lookup fs1 "chapters.txt" with
      | none => .raised fs1
      | some ch => .redirect "edit_description" [] (fs1.write "description.txt" ch)
    else
      match FS.lookup fs "titles.json" with
      | some t => .render "select_title.html" t fs
      | none => .render "select_title.html" (.arr [.str "No titles were generated"]) fs

/-- Models the `confirm_upload` handler (`app.py:199`).  The POST body runs in
`try/except Exception`: a missing or unreadable `final_title.txt` is caught
and flashed; it then picks the video path by testing for the
`color_edit_skipped.txt` sentinel and calls `upload_video`, whose
`sys.exit` on tool failure escapes the `except Exception`. -/
def web_confirm_upload (env : Env) (sessionId : Option String) (isPost : Bool)
    (fs : FS) : WebRes × List (Cmd × FS) :=
  match sessionId with
  | none => (.redirect "index" ["No active upload session"] fs, [])
  | some _ =>
    if isPost then
      match FS.lookup fs "final_title.txt" with
      | some (.str final_title) =>
        let color_edit_skipped := FS.pathExists fs "color_edit_skipped.txt"
        let video_path := if color_edit_skipped then "input_video.mp4" else "output.mp4"
        match upload_video env final_title video_path ⟨fs, [], []⟩ with
        | .ok _ s =>
            (.redirect "download_results" ["Video successfully uploaded to YouTube!"] s.fs,
             s.trace)
        | .exit c s => (.exited c s.fs, s.trace)
        | .crash s => (.raised s.fs, s.trace)
        | .blocked s => (.raised s.fs, s.trace)
      | _ => (.redirect "download_results" ["Error during upload"] fs, [])
    else
      match FS.lookup fs "final_title.txt", FS.lookup fs "description.txt" with
      | some (.str t), some (.str d) =>
          (.render "confirm.html" (.obj [("title", .str t), ("description", .str d)]) fs, [])
      | _, _ =>
          (.render "confirm.html" (.obj [("title", .str ""), ("description", .str "")]) fs, [])

/-- A well-formed payload as the chapter/title generator produces it (§6 of
the spec: `\x7bchapters: string, suggested_titles: [string]\x7d`). -/
def sampleChapters : Json :=
  .obj [("chapters", .str "00:00 Intro"), ("suggested_titles", .arr [.str "T1", .str "T2"])]

/-- A well-behaved external world: each tool of §6 succeeds and materializes
its declared output; unknown commands (the interactive editor) succeed with no
filesystem effect. -/
def goodEnv : Env := fun c fs =>
  match c.name, c.args with
  | "color_edit", ["--input", _, "--output", o, "--volume_threshold", _] =>
      (fs.write o (.str "edited-video"), 0)
  | "whisper", ["--output_format", "srt", "--task", "transcribe", v] =>
      (fs.write (withSuffix v ".srt") (.str "subtitles"), 0)
  | "yt_chapter_maker", ["--input", _, "--output", o] =>
      (fs.write o sampleChapters, 0)
  | _, _ => (fs, 0)

/-- A world where the color editor fails with status 7 and changes nothing. -/
def colorFailEnv : Env := fun c fs =>
  if c.name = "color_edit" then (fs, 7) else goodEnv c fs

/-- A world where the editor exits with the given status and all else is
well-behaved. -/
def editorCodeEnv (code : Nat) : Env := fun c fs =>
  if c.name = "nano" then (fs, code) else goodEnv c fs

def colorCmd : Cmd :=
  ⟨"color_edit", ["--input", "input_video.mp4", "--output", "output.mp4",
    "--volume_threshold", "0.002"]⟩

def whisperCmdOn (v : String) : Cmd :=
  ⟨"whisper", ["--output_format", "srt", "--task", "transcribe", v]⟩

def chapterCmd : Cmd :=
  ⟨"yt_chapter_maker", ["--input", "output.srt",
    "--output", "chapters_and_suggested_titles.json"]⟩

def editorCmd : Cmd := ⟨"nano", ["description.txt"]⟩

def uploadCmdOn (v title : String) : Cmd :=
  ⟨"yt_upload", ["--video", v, "--transcript", "output.srt",
    "--description", "description.txt", "--thumbnail", "thumbnail.png",
    "--title", title]⟩

/-- The three artifact-gated stage commands of a standard (non-skip) run. -/
def pipelineCmds : List Cmd :=
  [colorCmd, whisperCmdOn "output.mp4", chapterCmd]

/-- The artifacts of stages 1..3, in pipeline order, with the contents a
completed earlier run would have left. -/
def pipelineArtifacts : FS :=
  [("output.mp4", .str "edited-video"), ("output.srt", .str "subtitles"),
   ("chapters_and_suggested_titles.json", sampleChapters)]

def stdArgs : Args :=
  ⟨"input_video.mp4", false, false, "0.002"⟩

/-- Stdin: pick suggested title 1, keep it unchanged, answer `y`. -/
def stdInputs : List String := ["1", "", "y"]

/-- Final process state of a run, whichever way it ended. -/
def Res.stateOf {α : Type} : Res α → St
  | .ok _ s => s
  | .exit _ s => s
  | .crash s => s
  | .blocked s => s

theorem getD_mem_of_lt {l : List String} {n : Nat} (h : n < l.length) (d : String) :
    l.getD n d ∈ l := by
  induction l generalizing n with
  | nil => simp at h
  | cons a t ih =>
    cases n with
    | zero => simp [List.getD_cons_zero]
    | succ m =>
      rw [List.getD_cons_succ]
      exact List.mem_cons_of_mem _ (ih (by simpa using h))

/-- Any title the selection loop accepts is either a member of the suggestion
list or the stripped text of one of the consumed stdin lines, and the unread
lines it hands back form a suffix of the original stdin. -/
theorem selectTitle_sound (titles : List String) :
    ∀ (inputs : List String) (sel : String) (rest : List String),
      selectTitle titles inputs = some (sel, rest) →
      (sel ∈ titles ∨ ∃ i ∈ inputs, sel = strip i) ∧ List.IsSuffix rest inputs := by
  intro inputs
  induction inputs with
  | nil => intro sel rest h; simp [selectTitle] at h
  | cons i tl ih =>
    intro sel rest h
    cases hp : parseInt (strip i) with
    | none =>
      simp only [selectTitle, hp] at h
      obtain ⟨hm, hs⟩ := ih sel rest h
      refine ⟨?_, hs.trans (List.suffix_cons i tl)⟩
      rcases hm with hm | ⟨j, hj, hjs⟩
      · exact Or.inl hm
      · exact Or.inr ⟨j, List.mem_cons_of_mem _ hj, hjs⟩
    | some n =>
      by_cases h0 : n = 0
      · cases tl with
        | nil => simp [selectTitle, hp, h0] at h
        | cons c r2 =>
          simp only [selectTitle, hp, h0, if_pos rfl] at h
          obtain ⟨rfl, rfl⟩ := Prod.mk.injEq .. ▸ Option.some.injEq .. ▸ h
          refine ⟨Or.inr ⟨c, List.mem_cons_of_mem _ (List.mem_cons_self c r2), rfl⟩, ?_⟩
          exact (List.suffix_cons c r2).trans (List.suffix_cons i (c :: r2))
      · by_cases hr : 1 ≤ n ∧ n ≤ (titles.length : Int)
        · simp only [selectTitle, hp, h0, if_neg h0, if_pos hr] at h
          obtain ⟨rfl, rfl⟩ := Prod.mk.injEq .. ▸ Option.some.injEq .. ▸ h
          refine ⟨Or.inl (getD_mem_of_lt ?_ ""), List.suffix_cons i tl⟩
          omega
        · simp only [selectTitle, hp, h0, if_neg h0, if_neg hr] at h
          obtain ⟨hm, hs⟩ := ih sel rest h
          refine ⟨?_, hs.trans (List.suffix_cons i tl)⟩
          rcases hm with hm | ⟨j, hj, hjs⟩
          · exact Or.inl hm
          · exact Or.inr ⟨j, List.mem_cons_of_mem _ hj, hjs⟩

/-- C1: for each stage with an on-disk output artifact (color-edit,
transcription, chapter generation), when the declared output file already
exists the invocation returns with the process state literally unchanged: the
invocation trace is untouched (zero external tool invocations) and the
filesystem is the same association list, so every file — the artifact
included — is byte-identical; a second invocation is a no-op on state. -/
theorem claim1_artifact_stage_skip_is_noop :
    (∀ (env : Env) (iv ov vt : String) (s : St),
       FS.pathExists s.fs ov = true → color_edit_video env iv ov vt s = .ok () s) ∧
    (∀ (env : Env) (iv os : String) (s : St),
       FS.pathExists s.fs os = true → transcribe_video env iv os s = .ok () s) ∧
    (∀ (env : Env) (isrt oj : String) (s : St),
       FS.pathExists s.fs oj = true → generate_chapters env isrt oj s = .ok () s) := by
  refine ⟨?_, ?_, ?_⟩
  · intro env iv ov vt s h
    simp [color_edit_video, h]
  · intro env iv os s h
    simp [transcribe_video, h]
  · intro env isrt oj s h
    simp [generate_chapters, h]

theorem claim1_artifact_stage_skip_is_noop_witness :
    color_edit_video goodEnv "input_video.mp4" "output.mp4" "0.002"
        ⟨pipelineArtifacts, [], []⟩ = .ok () ⟨pipelineArtifacts, [], []⟩ ∧
    transcribe_video goodEnv "output.mp4" "output.srt"
        ⟨pipelineArtifacts, [], []⟩ = .ok () ⟨pipelineArtifacts, [], []⟩ ∧
    generate_chapters goodEnv "output.srt" "chapters_and_suggested_titles.json"
        ⟨pipelineArtifacts, [], []⟩ = .ok () ⟨pipelineArtifacts, [], []⟩ :=
  ⟨claim1_artifact_stage_skip_is_noop.1 goodEnv "input_video.mp4" "output.mp4" "0.002"
     ⟨pipelineArtifacts, [], []⟩ rfl,
   claim1_artifact_stage_skip_is_noop.2.1 goodEnv "output.mp4" "output.srt"
     ⟨pipelineArtifacts, [], []⟩ rfl,
   claim1_artifact_stage_skip_is_noop.2.2 goodEnv "output.srt"
     "chapters_and_suggested_titles.json" ⟨pipelineArtifacts, [], []⟩ rfl⟩

/-- C2: with the output artifacts of the artifact-gated stages 1..k present
(stage 1 `output.mp4`, stage 2 `output.srt`, stage 3 the chapters JSON — these
three are the pipeline's stages with presence-gated on-disk artifacts, so
N = 3) and those of stages k+1..3 absent, a full CLI run under well-behaved
tools invokes exactly the commands of stages k+1..3, once each, in pipeline
order, followed only by the always-run interactive editor and the upload tool;
no present-artifact stage re-invokes its tool, and the run completes. -/
theorem claim2_resumability :
    ∀ k : Fin 4,
      (mainRun goodEnv none true stdArgs
          ⟨pipelineArtifacts.take k.val, [], stdInputs⟩).okCmds =
        some (pipelineCmds.drop k.val ++ [editorCmd, uploadCmdOn "output.mp4" "T1"]) := by
  intro k
  fin_cases k <;> rfl

/-- C3 counterexample: the gate does not accept exactly the case-insensitive
string `"y"`: the input `" y "` differs from `"y"` even case-insensitively,
yet `confirm_upload` strips it first and proceeds with the upload instead of
terminating. -/
theorem claim3_counterexample :
    lower " y " ≠ "y" ∧
    confirm_upload "T" "description.txt" false
        ⟨[("description.txt", .str "D")], [], [" y "]⟩ =
      .ok () ⟨[("description.txt", .str "D")], [], []⟩ :=
  ⟨by decide, rfl⟩

/-- C3 (amended): when the skip flag is not set, `confirm_upload` accepts
exactly the inputs whose whitespace-stripped, lowercased form is `"y"`; any
other input terminates the process with exit code 0 (clean cancellation)
before `upload_video` is ever invoked — a full run answering `"n"` exits 0
having never invoked the upload tool; when the flag is set the gate is skipped
unconditionally, no interactive input is consumed, and the upload stage still
runs. -/
theorem claim3_confirm_gate :
    (∀ (ft df : String) (s : St), confirm_upload ft df true s = .ok () s) ∧
    (∀ (ft df : String) (fs : FS) (tr : List (Cmd × FS)) (i : String)
       (rest : List String) (d : Json),
       FS.lookup fs df = some d → lower (strip i) = "y" →
       confirm_upload ft df false ⟨fs, tr, i :: rest⟩ = .ok () ⟨fs, tr, rest⟩) ∧
    (∀ (ft df : String) (fs : FS) (tr : List (Cmd × FS)) (i : String)
       (rest : List String) (d : Json),
       FS.lookup fs df = some d → lower (strip i) ≠ "y" →
       confirm_upload ft df false ⟨fs, tr, i :: rest⟩ = .exit 0 ⟨fs, tr, rest⟩) ∧
    (mainRun goodEnv none true stdArgs ⟨[], [], ["1", "", "n"]⟩).exitInfo =
      some (0, [colorCmd, whisperCmdOn "output.mp4", chapterCmd, editorCmd]) ∧
    (mainRun goodEnv none true ⟨"input_video.mp4", true, false, "0.002"⟩
        ⟨[], [], ["1", ""]⟩).okCmds =
      some [colorCmd, whisperCmdOn "output.mp4", chapterCmd, editorCmd,
            uploadCmdOn "output.mp4" "T1"] := by
  refine ⟨?_, ?_, ?_, rfl, rfl⟩
  · intro ft df s
    simp [confirm_upload]
  · intro ft df fs tr i rest d h1 h2
    simp [confirm_upload, h1, h2]
  · intro ft df fs tr i rest d h1 h2
    simp [confirm_upload, h1, h2]

theorem claim3_confirm_gate_witness :
    confirm_upload "T" "description.txt" false
        ⟨[("description.txt", .str "D")], [], ["Y"]⟩ =
      .ok () ⟨[("description.txt", .str "D")], [], []⟩ :=
  claim3_confirm_gate.2.1 "T" "description.txt" [("description.txt", .str "D")] []
    "Y" [] (.str "D") rfl rfl

/-- C4: in `select_and_edit_title`, an accepted numeric input `n` with
`1 ≤ n ≤ len(titles)` selects `titles[n-1]`; input `0` branches to the
free-text custom prompt (whose stripped text becomes the selection);
out-of-range or non-integer input re-prompts with no state change (the run is
the run on the remaining inputs); the final title is the stripped edit-prompt
text when that is non-empty, otherwise the selected title; and the spec's
concrete examples hold (`["A","B","C"]` with `"2"` gives `"B"`, edit `"B2"`
gives `"B2"`, empty edit keeps `"B"`, `"0"` then `"My Title"` gives
`"My Title"`, and invalid inputs `"7"` / non-numeric are re-prompted). -/
theorem claim4_title_selection :
    (∀ (titles : List String) (i : String) (rest : List String) (n : Int),
       parseInt (strip i) = some n → 1 ≤ n → n ≤ (titles.length : Int) →
       selectTitle titles (i :: rest) = some (titles.getD (n.toNat - 1) "", rest)) ∧
    (∀ (titles : List String) (i c : String) (rest : List String),
       parseInt (strip i) = some 0 →
       selectTitle titles (i :: c :: rest) = some (strip c, rest)) ∧
    (∀ (titles : List String) (i : String) (rest : List String),
       (parseInt (strip i) = none ∨
        ∃ n : Int, parseInt (strip i) = some n ∧ n ≠ 0 ∧
          ¬(1 ≤ n ∧ n ≤ (titles.length : Int))) →
       selectTitle titles (i :: rest) = selectTitle titles rest) ∧
    (∀ (titles inputs : List String) (sel e : String) (rest : List String),
       selectTitle titles inputs = some (sel, e :: rest) →
       select_and_edit_title titles inputs =
         some (if (strip e).isEmpty then sel else strip e)) ∧
    select_and_edit_title ["A", "B", "C"] ["2", "B2"] = some "B2" ∧
    select_and_edit_title ["A", "B", "C"] ["2", ""] = some "B" ∧
    select_and_edit_title ["A", "B", "C"] ["0", "My Title", ""] = some "My Title" ∧
    select_and_edit_title ["A", "B", "C"] ["7", "x", "2", ""] = some "B" := by
  refine ⟨?_, ?_, ?_, ?_, rfl, rfl, rfl, rfl⟩
  · intro titles i rest n hp h1 h2
    have h0 : ¬(n = 0) := by omega
    simp [selectTitle, hp, h0, h1, h2]
  · intro titles i c rest hp
    simp [selectTitle, hp]
  · intro titles i rest hd
    rcases hd with hp | ⟨n, hp, h0, hr⟩
    · simp [selectTitle, hp]
    · simp [selectTitle, hp, h0, hr]
  · intro titles inputs sel e rest h
    simp [select_and_edit_title, h]

theorem claim4_title_selection_witness :
    selectTitle ["A", "B", "C"] ["2"] = some ("B", []) :=
  claim4_title_selection.1 ["A", "B", "C"] "2" [] 2 rfl (by decide) (by decide)

/-- C5 counterexample: not every external tool invocation is fatal on a
non-zero exit status: `edit_description` starts its editor with a bare
`subprocess.run` and never checks the status, so in a world where the editor
exits with status 7 at exactly the state it is invoked on, the stage still
returns normally, and a full CLI run under that world completes and even
invokes the upload tool afterwards. -/
theorem claim5_counterexample :
    (editorCodeEnv 7 editorCmd [("description.txt", .str "CH")]).2 = 7 ∧
    edit_description (editorCodeEnv 7) none "CH" ⟨[], [], []⟩ =
      .ok "description.txt"
        ⟨[("description.txt", .str "CH")],
         [(editorCmd, [("description.txt", .str "CH")])], []⟩ ∧
    (mainRun (editorCodeEnv 7) none true stdArgs ⟨[], [], stdInputs⟩).okCmds =
      some [colorCmd, whisperCmdOn "output.mp4", chapterCmd, editorCmd,
            uploadCmdOn "output.mp4" "T1"] :=
  ⟨rfl, rfl, rfl⟩

/-- C5 (amended): for every external tool invocation made through
`run_command` — the four pipeline adapters — a non-zero child exit status is
fatal with no retry: `run_command` aborts via `sys.exit` with the failing
tool's exit code after that single invocation, so the CLI process exits with
that code; and when the failing tool left the directory unchanged no new
output artifact exists for the failing stage (concretely, a color-edit
failure with status 7 ends the run at exit code 7 with only that one
invocation in the trace and `output.mp4` still absent).  The interactive
editor subprocess of `edit_description` is the one invocation that bypasses
`run_command`, and its exit status is ignored. -/
theorem claim5_run_command_failure_fatal :
    (∀ (env : Env) (cmd : Cmd) (s : St), (env cmd s.fs).2 ≠ 0 →
       run_command env cmd s =
         .exit (env cmd s.fs).2
           ⟨(env cmd s.fs).1, s.trace ++ [(cmd, s.fs)], s.inputs⟩) ∧
    mainRun colorFailEnv none true stdArgs ⟨[], [], stdInputs⟩ =
      .exit 7 ⟨[], [(colorCmd, [])], stdInputs⟩ ∧
    FS.pathExists
      (Res.stateOf (mainRun colorFailEnv none true stdArgs ⟨[], [], stdInputs⟩)).fs
      "output.mp4" = false ∧
    (∀ code : Nat,
       edit_description (editorCodeEnv code) none "CH" ⟨[], [], []⟩ =
         .ok "description.txt"
           ⟨[("description.txt", .str "CH")],
            [(editorCmd, [("description.txt", .str "CH")])], []⟩) := by
  refine ⟨?_, rfl, rfl, fun code => rfl⟩
  intro env cmd s h
  simp [run_command, h]

theorem claim5_run_command_failure_fatal_witness :
    run_command colorFailEnv colorCmd ⟨[], [], []⟩ =
      .exit 7 ⟨[], [(colorCmd, [])], []⟩ :=
  claim5_run_command_failure_fatal.1 colorFailEnv colorCmd ⟨[], [], []⟩ (by decide)

/-- C6: when color editing is explicitly skipped by the caller, the original
input video path is substituted as the color-edited output reference for all
downstream stages — a skipped CLI run transcribes the input path itself and
uploads it — and (in the web variant, where the decision must survive across
requests) a `color_edit_skipped.txt` sentinel is written by the processing
request, so the later, independent confirm request reconstructs the bypass
from the session directory alone and uploads the original input path. -/
theorem claim6_skip_color_edit :
    (mainRun goodEnv none true ⟨"input_video.mp4", false, true, "0.002"⟩
        ⟨[("input_video.mp4", .str "raw")], [], stdInputs⟩).okCmds =
      some [whisperCmdOn "input_video.mp4", chapterCmd, editorCmd,
            uploadCmdOn "input_video.mp4" "T1"] ∧
    (web_process_video goodEnv (some "sid") true true true
        [("input_video.mp4", .str "raw")]).1.endpointOf = some "select_title" ∧
    FS.pathExists
      (web_process_video goodEnv (some "sid") true true true
        [("input_video.mp4", .str "raw")]).1.fsOf "color_edit_skipped.txt" = true ∧
    (web_confirm_upload goodEnv (some "sid") true
        ((web_select_title (some "sid") true "My Title"
          ((web_process_video goodEnv (some "sid") true true true
            [("input_video.mp4", .str "raw")]).1.fsOf)).fsOf)).2.map Prod.fst =
      [uploadCmdOn "input_video.mp4" "My Title"] :=
  ⟨rfl, rfl, rfl, rfl⟩

/-- C7: `extract_chapters_and_titles` on a parsed JSON object defaults a
missing `"chapters"` key to the empty string and a missing
`"suggested_titles"` key to the empty list, returns a value (never raises) on
every object, and in particular maps the payload `\x7b\x7d` to
`(chapters = "", titles = [])`. -/
theorem claim7_extract_defaults :
    (∀ kvs : List (String × Json), jsonFind kvs "chapters" = none →
       (extract_chapters_and_titles (.obj kvs)).map Prod.fst = some (.str "")) ∧
    (∀ kvs : List (String × Json), jsonFind kvs "suggested_titles" = none →
       (extract_chapters_and_titles (.obj kvs)).map Prod.snd = some (.arr [])) ∧
    (∀ kvs : List (String × Json),
       (extract_chapters_and_titles (.obj kvs)).isSome = true) ∧
    extract_chapters_and_titles (.obj []) = some (.str "", .arr []) := by
  refine ⟨?_, ?_, ?_, rfl⟩
  · intro kvs h
    simp [extract_chapters_and_titles, h]
  · intro kvs h
    simp [extract_chapters_and_titles, h]
  · intro kvs
    simp [extract_chapters_and_titles]

theorem claim7_extract_defaults_witness :
    (extract_chapters_and_titles
        (.obj [("other", .num 1)])).map Prod.fst = some (.str "") :=
  claim7_extract_defaults.1 [("other", .num 1)] rfl

/-- C8 counterexample: the select-title POST handler does not recover from a
missing artifact: with a live session whose folder lacks `chapters.txt`, the
unguarded `read_text` raises, so the handler ends in an unhandled exception
instead of a redirect with a notice. -/
theorem claim8_counterexample :
    web_select_title (some "sid") true "T" [("input_video.mp4", .str "raw")] =
      .raised [("input_video.mp4", .str "raw"), ("final_title.txt", .str "T")] :=
  rfl

/-- C8 (amended): a missing session is recovered by a redirect to the index
page with a user-visible notice in the web handlers (select-title,
process-video, confirm), and a missing session folder likewise in
process-video; the GET-path artifact reads recover with defaults (select-title
GET renders the placeholder title list when `titles.json` is missing); but the
select-title POST handler reads the chapters artifact unguarded, so a missing
`chapters.txt` there raises an unhandled exception rather than redirecting. -/
theorem claim8_web_recovery :
    (∀ (isPost : Bool) (t : String) (fs : FS),
       web_select_title none isPost t fs =
         .redirect "index" ["No active upload session"] fs) ∧
    (∀ (env : Env) (fe isPost skip : Bool) (fs : FS),
       web_process_video env none fe isPost skip fs =
         (.redirect "index" ["No active upload session"] fs, [])) ∧
    (∀ (env : Env) (isPost : Bool) (fs : FS),
       web_confirm_upload env none isPost fs =
         (.redirect "index" ["No active upload session"] fs, [])) ∧
    (∀ (env : Env) (sid : String) (isPost skip : Bool) (fs : FS),
       web_process_video env (some sid) false isPost skip fs =
         (.redirect "index" ["Upload session not found"] fs, [])) ∧
    (∀ (sid t : String) (fs : FS), FS.lookup fs "titles.json" = none →
       web_select_title (some sid) false t fs =
         .render "select_title.html" (.arr [.str "No titles were generated"]) fs) ∧
    (∀ (sid t : String) (fs : FS),
       FS.lookup (fs.write "final_title.txt" (.str t)) "chapters.txt" = none →
       web_select_title (some sid) true t fs =
         .raised (fs.write "final_title.txt" (.str t))) := by
  refine ⟨?_, ?_, ?_, ?_, ?_, ?_⟩
  · intro isPost t fs; rfl
  · intro env fe isPost skip fs; rfl
  · intro env isPost fs; rfl
  · intro env sid isPost skip fs; rfl
  · intro sid t fs h
    simp [web_select_title, h]
  · intro sid t fs h
    simp [web_select_title, h]

theorem claim8_web_recovery_witness :
    web_select_title (some "sid") false "x" [] =
      .render "select_title.html" (.arr [.str "No titles were generated"]) [] :=
  claim8_web_recovery.2.2.2.2.1 "sid" "x" [] rfl

/-- C9: `edit_description` has no output-presence skip: for every prior state,
including one where `description.txt` already exists with other content, it
invokes exactly one external command (the editor) and the filesystem that
command is invoked on already has `description.txt` overwritten with the
chapters text, so any previously edited description content is discarded on
every re-run; concretely, prior content `"OLD"` is replaced by the chapter
text `"NEW"` before a no-op editor runs. -/
theorem claim9_edit_description_always_overwrites :
    (∀ (env : Env) (editorVar : Option String) (chapters : String) (s : St),
       Res.traceAll (edit_description env editorVar chapters s) =
         s.trace ++ [(⟨editorVar.getD "nano", ["description.txt"]⟩,
                      s.fs.write "description.txt" (.str chapters))] ∧
       FS.lookup (s.fs.write "description.txt" (.str chapters)) "description.txt" =
         some (.str chapters)) ∧
    edit_description (editorCodeEnv 0) none "NEW"
        ⟨[("description.txt", .str "OLD")], [], []⟩ =
      .ok "description.txt"
        ⟨[("description.txt", .str "NEW")],
         [(editorCmd, [("description.txt", .str "NEW")])], []⟩ := by
  refine ⟨?_, rfl⟩
  intro env editorVar chapters s
  refine ⟨?_, FS.lookup_write_self s.fs "description.txt" (.str chapters)⟩
  simp only [edit_description]
  split <;> rfl

/-- C10: the acceptance condition `1 ≤ n ≤ len(titles)` is unsatisfiable for
an empty suggestion list, so every terminating selection over an empty list
got its title from the custom-entry branch — the stripped text of one of the
stdin lines; and in general every title `select_and_edit_title` returns is an
element of `titles` or the stripped text of one of the consumed input lines
(the custom entry or the non-empty edit override) — never any other string. -/
theorem claim10_result_provenance :
    (∀ n : Int, ¬(1 ≤ n ∧ n ≤ ((List.length ([] : List String)) : Int))) ∧
    (∀ (inputs : List String) (sel : String) (rest : List String),
       selectTitle [] inputs = some (sel, rest) → ∃ i ∈ inputs, sel = strip i) ∧
    (∀ (titles inputs : List String) (t : String),
       select_and_edit_title titles inputs = some t →
       t ∈ titles ∨ ∃ i ∈ inputs, t = strip i) := by
  refine ⟨?_, ?_, ?_⟩
  · intro n
    simp
    omega
  · intro inputs sel rest h
    rcases (selectTitle_sound [] inputs sel rest h).1 with hm | hm
    · simp at hm
    · exact hm
  · intro titles inputs t h
    unfold select_and_edit_title at h
    cases h1 : selectTitle titles inputs with
    | none => rw [h1] at h; simp at h
    | some p =>
      obtain ⟨sel, rest⟩ := p
      rw [h1] at h
      cases rest with
      | nil => simp at h
      | cons e r =>
        obtain ⟨hm, hs⟩ := selectTitle_sound titles inputs sel (e :: r) h1
        simp only [Option.some.injEq] at h
        by_cases he : (strip e).isEmpty
        · rw [if_pos he] at h
          subst h
          exact hm
        · rw [if_neg he] at h
          subst h
          exact Or.inr ⟨e, hs.subset (List.mem_cons_self e r), rfl⟩

theorem claim10_result_provenance_witness :
    "B2" ∈ ["A", "B", "C"] ∨ ∃ i ∈ ["2", "B2"], "B2" = strip i :=
  claim10_result_provenance.2.2 ["A", "B", "C"] ["2", "B2"] "B2" rfl
